import Mathlib

/-!
Verification development for the hitavada-crossword-downloader repository.

The repository locates a daily crossword image on a newspaper site.  Its core
is a pure geometry matcher (`src/parser/mod.rs`: `parse_coords`,
`get_target_rect`) and a bounded page-search driver
(`src/crossword/mod.rs`: `download_crossword`).  `src/main.rs` carries a
second, slightly different copy of the matcher (`get_target_rect` with an
exact `x1 == 0` check instead of a tolerance of 5).

Embedding choices:
* Rust `i32` values are modelled as `Int`; `str::parse::<i32>` is modelled by
  `parseI32`, which enforces the i32 range (overflow is a parse failure, as in
  Rust, never a wrap).  The matcher's `(coord - ref).abs() <= tol` arithmetic
  is modelled by `i32sub`/`i32abs`, which wrap into the i32 range exactly as
  Rust release builds do: `abs` of -2147483648 (`i32::MIN`) wraps back to
  -2147483648, which the signed comparison against the tolerance accepts.
  Debug builds panic on that overflow instead; the deployed release-build
  semantics is what is modelled.
* The HTML parse performed by the external `scraper` crate is modelled by its
  result: markup is a list of `area` elements in document order, each with an
  optional `coords` and an optional `href` attribute (`Area`); the crossword
  page is a list of `img` elements of the `.slices_container img` selector in
  document order, each with an optional `src` attribute (`Img`).
* The effectful driver `download_crossword` is embedded as a function from an
  environment of response oracles (`Env`) to a result together with a trace of
  attempted external effects (`Event`), mirroring the Rust control flow
  statement by statement.
-/

/-- A clickable rectangle, mirroring `struct Rect` in `src/types/mod.rs`
(four `i32` fields). -/
structure Rect where
  x1 : Int
  y1 : Int
  x2 : Int
  y2 : Int
deriving DecidableEq, Repr

/-- One `area` element of the markup: its optional `coords` attribute and
optional `href` attribute, in document order within a list. -/
structure Area where
  coords : Option String
  href : Option String
deriving DecidableEq, Repr

/-- Split a character list at every occurrence of `sep`, keeping empty pieces,
as Rust `str::split(',')` does ("" gives one empty piece, "a,,b" gives three
pieces). -/
def splitChars (sep : Char) : List Char → List (List Char)
  | [] => [[]]
  | c :: rest =>
    if c = sep then
      [] :: splitChars sep rest
    else
      match splitChars sep rest with
      | [] => [[c]]
      | t :: ts => (c :: t) :: ts

/-- Model of Rust `str::split(',')` producing the pieces as strings. -/
def splitOnComma (s : String) : List String :=
  (splitChars ',' s.data).map fun cs => ⟨cs⟩

/-- Model of Rust `str::trim`: drop whitespace characters from both ends.
(Rust trims Unicode whitespace; the inputs here are ASCII, where Lean's
`Char.isWhitespace` coincides with it.) -/
def trimStr (s : String) : String :=
  ⟨((s.data.dropWhile Char.isWhitespace).reverse.dropWhile Char.isWhitespace).reverse⟩

/-- List of characters is nonempty and all ASCII digits, as accepted by the
digit loop of Rust `str::parse::<i32>`. -/
def allDigits (cs : List Char) : Bool :=
  !cs.isEmpty && cs.all Char.isDigit

/-- Numeric value of a digit string (most significant first). -/
def digitsVal (cs : List Char) : Nat :=
  cs.foldl (fun acc c => 10 * acc + (c.toNat - '0'.toNat)) 0

/-- Model of Rust `str::parse::<i32>`: an optional sign followed by one or
more ASCII digits, value within the `i32` range; anything else (empty string,
stray characters, overflow) fails. -/
def parseI32 (s : String) : Option Int :=
  let cs := s.data
  let (sign, digits) : Int × List Char :=
    match cs with
    | '-' :: rest => (-1, rest)
    | '+' :: rest => (1, rest)
    | _ => (1, cs)
  if allDigits digits then
    let v : Int := sign * (digitsVal digits : Int)
    if -(2 ^ 31) ≤ v ∧ v ≤ 2 ^ 31 - 1 then some v else none
  else
    none

/-- Model of `parse_coords` (`src/parser/mod.rs` lines 5-21, duplicated in
`src/main.rs` lines 147-163): split on commas, trim each part, keep only the
parts that parse as `i32` (`filter_map(... .ok())`), and build a `Rect` iff
exactly four values survive. -/
def parse_coords (s : String) : Option Rect :=
  let parts := (splitOnComma s).filterMap (fun t => parseI32 (trimStr t))
  if parts.length = 4 then
    some ⟨parts.getD 0 0, parts.getD 1 0, parts.getD 2 0, parts.getD 3 0⟩
  else
    none

/-- Wrap an integer into the `i32` range [-2147483648, 2147483648), as Rust
release-build two's-complement arithmetic does. -/
def i32wrap (v : Int) : Int :=
  (v + 2147483648) % 4294967296 - 2147483648

/-- Model of `i32` subtraction `a - b` under Rust release-build semantics:
the mathematical difference wrapped into the `i32` range.  (A debug build
panics instead when the difference overflows; the deployed release semantics
is modelled.) -/
def i32sub (a b : Int) : Int :=
  i32wrap (a - b)

/-- Model of `i32::abs` under Rust release-build semantics: the mathematical
absolute value wrapped into the `i32` range.  In particular
`(-2147483648).abs()` overflows and wraps back to -2147483648 (a debug build
panics there instead). -/
def i32abs (v : Int) : Int :=
  i32wrap |v|

/-- The four tolerance checks of `get_target_rect` in `src/parser/mod.rs`
(lines 27-40): `(x1 - 0).abs() <= 5`, `(y1 - 1625).abs() <= 50`,
`(x2 - 1000).abs() <= 10`, `(y2 - 2775).abs() <= 50` in `i32` arithmetic,
against the reference target (0, 1625, 1000, 2775).  Because `i32::abs`
wraps at -2147483648 in release builds, a coordinate whose wrapped difference
from its reference is exactly -2147483648 also passes the signed
comparison. -/
def withinTolerance (r : Rect) : Prop :=
  i32abs (i32sub r.x1 0) ≤ 5 ∧ i32abs (i32sub r.y1 1625) ≤ 50 ∧
    i32abs (i32sub r.x2 1000) ≤ 10 ∧ i32abs (i32sub r.y2 2775) ≤ 50

instance (r : Rect) : Decidable (withinTolerance r) := by
  unfold withinTolerance; infer_instance

/-- The closure passed to `find_map` inside `get_target_rect` of
`src/parser/mod.rs` (lines 32-53): an area contributes its `href` iff it has a
`coords` attribute that parses to a rectangle within all four tolerances. -/
def area_match (a : Area) : Option String :=
  match a.coords with
  | none => none
  | some cs =>
    match parse_coords cs with
    | none => none
    | some rect =>
      if withinTolerance rect then
        a.href
      else
        none

/-- Model of `get_target_rect` in `src/parser/mod.rs` (lines 24-54):
`find_map` of `area_match` over the area elements in document order. -/
def get_target_rect (areas : List Area) : Option String :=
  areas.findSome? area_match

/-- The closure of the `get_target_rect` variant in `src/main.rs`
(lines 173-193): identical to `area_match` except that `x1` must be exactly 0
(`rect.x1 == 0`) instead of within tolerance 5; the y1/x2/y2 checks use the
same `i32` release-build arithmetic. -/
def main_area_match (a : Area) : Option String :=
  match a.coords with
  | none => none
  | some cs =>
    match parse_coords cs with
    | none => none
    | some rect =>
      if rect.x1 = 0 ∧ i32abs (i32sub rect.y1 1625) ≤ 50 ∧
          i32abs (i32sub rect.x2 1000) ≤ 10 ∧ i32abs (i32sub rect.y2 2775) ≤ 50 then
        a.href
      else
        none

/-- Model of the `get_target_rect` variant in `src/main.rs` (lines 166-194). -/
def main_get_target_rect (areas : List Area) : Option String :=
  areas.findSome? main_area_match

/-- An area passes the code's four i32 tolerance checks and carries the link
reference `s`: the condition under which `area_match` yields `some s`. -/
def MatchesWithLink (a : Area) (s : String) : Prop :=
  ∃ cs r, a.coords = some cs ∧ parse_coords cs = some r ∧
    withinTolerance r ∧ a.href = some s

/-- One `img` element of the `.slices_container img` selector, with its
optional `src` attribute. -/
structure Img where
  src : Option String
deriving DecidableEq, Repr

/-- An attempted external effect of `download_crossword`
(`src/crossword/mod.rs` lines 27-119), in the order the code issues them. -/
inductive Event where
  | discovery (page : Nat)
  | pageFetch (url : String)
  | imageFetch (url : String)
  | write (path : String)
  | credResolve
  | upload (path : String)
deriving DecidableEq, Repr

/-- Oracles for the external world seen by `download_crossword` during one
run.  Each field models one fallible collaborator: the discovery POST per page
(its body, already parsed into the `area` elements of the markup), the
crossword-page GET (parsed into the `img` elements of the selected container),
the image GET (raw bytes), the local file write, the credential resolution and
the upload.  An `Except.error` models the `?`-propagated failure of the
corresponding Rust call. -/
structure Env where
  mappingResponse : Nat → Except String (List Area)
  pageResponse : String → Except String (List Img)
  imageResponse : String → Except String (List Nat)
  writeFile : String → List Nat → Except String Unit
  getCredentials : Except String String
  upload : String → String → Except String String

/-- The body of the `if let Some(href) = get_target_rect(..)` branch of
`download_crossword` (`src/crossword/mod.rs` lines 61-113): fetch the
crossword page at the href resolved against the base URL, take the first
`.slices_container img` element (`Could not find crossword image` if absent),
take its `src` attribute (`Could not find image source` if absent), fetch the
image at the resolved source, write the bytes to
`/tmp/crossword_<date>.jpg`, resolve credentials, upload, and return the
filename.  The result is paired with the trace of attempted effects; every
`?`-failure aborts with that stage's error. -/
def handleMatch (env : Env) (dateStr href : String) :
    Except String String × List Event :=
  let crosswordUrl := "https://www.ehitavada.com/" ++ href
  match env.pageResponse crosswordUrl with
  | .error e => (.error e, [.pageFetch crosswordUrl])
  | .ok imgs =>
    match imgs.head? with
    | none => (.error "Could not find crossword image", [.pageFetch crosswordUrl])
    | some img =>
      match img.src with
      | none => (.error "Could not find image source", [.pageFetch crosswordUrl])
      | some src =>
        let imgUrl := "https://www.ehitavada.com/" ++ src
        match env.imageResponse imgUrl with
        | .error e => (.error e, [.pageFetch crosswordUrl, .imageFetch imgUrl])
        | .ok imgData =>
          let filename := "/tmp/crossword_" ++ dateStr ++ ".jpg"
          match env.writeFile filename imgData with
          | .error e =>
            (.error e, [.pageFetch crosswordUrl, .imageFetch imgUrl, .write filename])
          | .ok _ =>
            match env.getCredentials with
            | .error e =>
              (.error e,
                [.pageFetch crosswordUrl, .imageFetch imgUrl, .write filename,
                  .credResolve])
            | .ok creds =>
              match env.upload filename creds with
              | .error e =>
                (.error e,
                  [.pageFetch crosswordUrl, .imageFetch imgUrl, .write filename,
                    .credResolve, .upload filename])
              | .ok _ =>
                (.ok filename,
                  [.pageFetch crosswordUrl, .imageFetch imgUrl, .write filename,
                    .credResolve, .upload filename])

/-- The `for page in 1..=20` loop of `download_crossword`
(`src/crossword/mod.rs` lines 35-118), over an explicit list of remaining
page indices: issue the discovery request for the head page (a transport
failure aborts via `?`), run the matcher on the response, on a match run
`handleMatch` and stop, on no match move to the next page, and after the last
page fail with `Could not find crossword on any page`. -/
def tryPages (env : Env) (dateStr : String) :
    List Nat → Except String String × List Event
  | [] => (.error "Could not find crossword on any page", [])
  | page :: rest =>
    match env.mappingResponse page with
    | .error e => (.error e, [.discovery page])
    | .ok areas =>
      match get_target_rect areas with
      | some href =>
        ((handleMatch env dateStr href).1,
          .discovery page :: (handleMatch env dateStr href).2)
      | none =>
        ((tryPages env dateStr rest).1,
          .discovery page :: (tryPages env dateStr rest).2)

/-- Model of `download_crossword` (`src/crossword/mod.rs` lines 27-119): the
page loop over pages 1 through 20 inclusive, in increasing order. -/
def download_crossword (env : Env) (dateStr : String) :
    Except String String × List Event :=
  tryPages env dateStr (List.range' 1 20)

/-- A page's discovery response arrives intact and the matcher finds nothing
in it: the only situation in which the loop advances past that page. -/
def NoMatchOk (env : Env) (page : Nat) : Prop :=
  ∃ areas, env.mappingResponse page = .ok areas ∧ get_target_rect areas = none

example : parse_coords "0,1625,1000,2775" = some ⟨0, 1625, 1000, 2775⟩ := by decide

example : get_target_rect [⟨some "0,1625,1000,2775", some "t1"⟩] = some "t1" := by decide

example : get_target_rect [⟨some "0,1670,1001,2764", some "t2"⟩] = some "t2" := by decide

example : get_target_rect [⟨some "0,1627,242,2286", some "t3"⟩] = none := by decide

example : get_target_rect [⟨some "10,1625,1000,2775", some "t4"⟩] = none := by decide

theorem area_match_eq_some {a : Area} {s : String} :
    area_match a = some s ↔ MatchesWithLink a s := by
  obtain ⟨oc, oh⟩ := a
  unfold area_match MatchesWithLink
  cases oc with
  | none => simp
  | some cs =>
    simp only
    cases hp : parse_coords cs with
    | none => simp [hp]
    | some r =>
      by_cases ht : withinTolerance r
      · simp [hp, ht]
      · simp [hp, ht]

theorem area_match_eq_none {a : Area} :
    area_match a = none ↔ ∀ s, ¬ MatchesWithLink a s := by
  constructor
  · intro h s hm
    rw [← area_match_eq_some] at hm
    rw [h] at hm
    exact Option.noConfusion hm
  · intro h
    cases hm : area_match a with
    | none => rfl
    | some s => exact absurd (area_match_eq_some.mp hm) (h s)

theorem findSome?_skip {α β : Type} (f : α → Option β) (l₁ l₂ : List α)
    (h : ∀ b ∈ l₁, f b = none) :
    (l₁ ++ l₂).findSome? f = l₂.findSome? f := by
  rw [List.findSome?_append, List.findSome?_eq_none_iff.mpr h, Option.none_or]

theorem i32wrap_lb (v : Int) : -2147483648 ≤ i32wrap v := by
  unfold i32wrap
  omega

theorem i32wrap_ub (v : Int) : i32wrap v < 2147483648 := by
  unfold i32wrap
  omega

theorem i32sub_lb (a b : Int) : -2147483648 ≤ i32sub a b :=
  i32wrap_lb (a - b)

theorem i32sub_ub (a b : Int) : i32sub a b < 2147483648 :=
  i32wrap_ub (a - b)

theorem i32abs_le_cases {d tol : Int} (hlb : -2147483648 ≤ d)
    (hub : d < 2147483648) (h : i32abs d ≤ tol) :
    d = -2147483648 ∨ |d| ≤ tol := by
  unfold i32abs i32wrap at h
  rcases abs_choice d with hm | hm <;> rw [hm] at h ⊢ <;> omega

/-- C1 counterexample: the region (-2147483648, -2147482023, -2147482648,
-2147480873) parses, each of its four coordinate differences from the
reference equals -2147483648 (`i32::MIN`), so each is astronomically far
outside its tolerance in absolute value; yet the release-build `i32::abs`
wraps to -2147483648, every signed comparison passes, and `get_target_rect`
returns the region's link, contradicting "only when within all four
tolerances".  (A debug build panics at the same input instead of returning.) -/
theorem get_target_rect_overflow_cex :
    parse_coords "-2147483648,-2147482023,-2147482648,-2147480873" =
      some ⟨-2147483648, -2147482023, -2147482648, -2147480873⟩ ∧
    ((-2147483648 : Int) - 0).natAbs > 5 ∧
    ((-2147482023 : Int) - 1625).natAbs > 50 ∧
    ((-2147482648 : Int) - 1000).natAbs > 10 ∧
    ((-2147480873 : Int) - 2775).natAbs > 50 ∧
    get_target_rect
      [⟨some "-2147483648,-2147482023,-2147482648,-2147480873", some "evil"⟩] =
      some "evil" := by decide

/-- C1 amended: `get_target_rect` returns a region's link reference only when
that region's rectangle passes all four of the code's i32 tolerance checks:
for each coordinate, the i32 difference from the reference is either within
the tolerance in absolute value or exactly -2147483648 (where the
release-build `i32::abs` wraps and the signed comparison accepts).  The
exact reference rectangle always matches, the rectangle (0, 1670, 1001, 2764)
within all tolerances matches, and the rectangles (0, 1627, 242, 2286) (x2
far outside tolerance) and (10, 1625, 1000, 2775) (x1 outside tolerance,
other coordinates exact) do not match. -/
theorem get_target_rect_only_within_i32_checks :
    (∀ areas s, get_target_rect areas = some s →
      ∃ a ∈ areas, a.href = some s ∧ ∃ cs r, a.coords = some cs ∧
        parse_coords cs = some r ∧
        (i32sub r.x1 0 = -2147483648 ∨ |i32sub r.x1 0| ≤ 5) ∧
        (i32sub r.y1 1625 = -2147483648 ∨ |i32sub r.y1 1625| ≤ 50) ∧
        (i32sub r.x2 1000 = -2147483648 ∨ |i32sub r.x2 1000| ≤ 10) ∧
        (i32sub r.y2 2775 = -2147483648 ∨ |i32sub r.y2 2775| ≤ 50)) ∧
    (∀ h, get_target_rect [⟨some "0,1625,1000,2775", some h⟩] = some h) ∧
    (∀ h, get_target_rect [⟨some "0,1670,1001,2764", some h⟩] = some h) ∧
    (∀ h, get_target_rect [⟨some "0,1627,242,2286", some h⟩] = none) ∧
    (∀ h, get_target_rect [⟨some "10,1625,1000,2775", some h⟩] = none) := by
  refine ⟨?_, ?_, ?_, ?_, ?_⟩
  · intro areas s h
    obtain ⟨a, ha, hm⟩ := List.exists_of_findSome?_eq_some h
    obtain ⟨cs, r, hc, hp, ht, hh⟩ := area_match_eq_some.mp hm
    exact ⟨a, ha, hh, cs, r, hc, hp,
      i32abs_le_cases (i32sub_lb _ _) (i32sub_ub _ _) ht.1,
      i32abs_le_cases (i32sub_lb _ _) (i32sub_ub _ _) ht.2.1,
      i32abs_le_cases (i32sub_lb _ _) (i32sub_ub _ _) ht.2.2.1,
      i32abs_le_cases (i32sub_lb _ _) (i32sub_ub _ _) ht.2.2.2⟩
  · intro h
    have hm : area_match ⟨some "0,1625,1000,2775", some h⟩ = some h := by
      simp only [area_match]
      rw [show parse_coords "0,1625,1000,2775" = some ⟨0, 1625, 1000, 2775⟩ from by decide]
      exact if_pos (by decide)
    rw [get_target_rect, List.findSome?_cons, hm]
  · intro h
    have hm : area_match ⟨some "0,1670,1001,2764", some h⟩ = some h := by
      simp only [area_match]
      rw [show parse_coords "0,1670,1001,2764" = some ⟨0, 1670, 1001, 2764⟩ from by decide]
      exact if_pos (by decide)
    rw [get_target_rect, List.findSome?_cons, hm]
  · intro h
    have hm : area_match ⟨some "0,1627,242,2286", some h⟩ = none := by
      simp only [area_match]
      rw [show parse_coords "0,1627,242,2286" = some ⟨0, 1627, 242, 2286⟩ from by decide]
      exact if_neg (by decide)
    rw [get_target_rect, List.findSome?_cons, hm]
    rfl
  · intro h
    have hm : area_match ⟨some "10,1625,1000,2775", some h⟩ = none := by
      simp only [area_match]
      rw [show parse_coords "10,1625,1000,2775" = some ⟨10, 1625, 1000, 2775⟩ from by decide]
      exact if_neg (by decide)
    rw [get_target_rect, List.findSome?_cons, hm]
    rfl

/-- The soundness direction of the amended C1 applied at a concrete input on
which `get_target_rect` evaluates to a match. -/
theorem get_target_rect_only_within_i32_checks_witness :
    ∃ a ∈ [Area.mk (some "0,1625,1000,2775") (some "w")], a.href = some "w" ∧
      ∃ cs r, a.coords = some cs ∧ parse_coords cs = some r ∧
        (i32sub r.x1 0 = -2147483648 ∨ |i32sub r.x1 0| ≤ 5) ∧
        (i32sub r.y1 1625 = -2147483648 ∨ |i32sub r.y1 1625| ≤ 50) ∧
        (i32sub r.x2 1000 = -2147483648 ∨ |i32sub r.x2 1000| ≤ 10) ∧
        (i32sub r.y2 2775 = -2147483648 ∨ |i32sub r.y2 2775| ≤ 50) :=
  get_target_rect_only_within_i32_checks.1
    [Area.mk (some "0,1625,1000,2775") (some "w")] "w" (by decide)

/-- C3 counterexample: the five-token string "0,1625,1000,2775,junk" has the
wrong token count and a non-numeric token, yet `parse_coords` returns a
rectangle instead of the `None` the claim asserts. -/
theorem parse_coords_shape_cex :
    (splitOnComma "0,1625,1000,2775,junk").length = 5 ∧
    parseI32 (trimStr "junk") = none ∧
    parse_coords "0,1625,1000,2775,junk" = some ⟨0, 1625, 1000, 2775⟩ := by decide

/-- C3 amended: a string that splits into exactly four tokens, each parsing
as an integer (after trimming), yields the Rectangle of those integers in
order; a string whose tokens yield a number of parseable integers other than
four yields no rectangle; the empty string yields no rectangle. -/
theorem parse_coords_amended :
    (∀ s t1 t2 t3 t4 n1 n2 n3 n4,
      splitOnComma s = [t1, t2, t3, t4] →
      parseI32 (trimStr t1) = some n1 → parseI32 (trimStr t2) = some n2 →
      parseI32 (trimStr t3) = some n3 → parseI32 (trimStr t4) = some n4 →
      parse_coords s = some ⟨n1, n2, n3, n4⟩) ∧
    (∀ s, ((splitOnComma s).filterMap fun t => parseI32 (trimStr t)).length ≠ 4 →
      parse_coords s = none) ∧
    parse_coords "" = none := by
  refine ⟨?_, ?_, by decide⟩
  · intro s t1 t2 t3 t4 n1 n2 n3 n4 hs h1 h2 h3 h4
    rw [parse_coords, hs]
    simp [List.filterMap, h1, h2, h3, h4]
  · intro s h
    rw [parse_coords, if_neg h]

/-- The amended C3 applied at concrete inputs: a four-integer string parses
to its rectangle, and a two-token non-numeric string parses to nothing. -/
theorem parse_coords_amended_witness :
    parse_coords "0,1625,1000,2775" = some ⟨0, 1625, 1000, 2775⟩ ∧
    parse_coords "a,b" = none :=
  ⟨parse_coords_amended.1 "0,1625,1000,2775" "0" "1625" "1000" "2775"
      0 1625 1000 2775 (by decide) (by decide) (by decide) (by decide) (by decide),
    parse_coords_amended.2.1 "a,b" (by decide)⟩

/-- C9: the matcher in `src/parser/mod.rs` and the matcher in `src/main.rs`
disagree on the single region (3, 1625, 1000, 2775): the former accepts x1
within tolerance 5 of zero, the latter requires x1 exactly 0. -/
theorem matcher_variants_differ :
    get_target_rect [⟨some "3,1625,1000,2775", some "link"⟩] = some "link" ∧
    main_get_target_rect [⟨some "3,1625,1000,2775", some "link"⟩] = none ∧
    get_target_rect [⟨some "3,1625,1000,2775", some "link"⟩] ≠
      main_get_target_rect [⟨some "3,1625,1000,2775", some "link"⟩] := by decide

/-- C10: tokens that fail to parse as integers are discarded before the
four-count check, so the five-token string "0,1625,1000,2775,junk" (whose
last token is non-numeric) still yields the rectangle (0, 1625, 1000, 2775). -/
theorem parse_coords_discards_bad_tokens :
    (splitOnComma "0,1625,1000,2775,junk").length ≠ 4 ∧
    parseI32 (trimStr "junk") = none ∧
    parse_coords "0,1625,1000,2775,junk" = some ⟨0, 1625, 1000, 2775⟩ := by decide

/-- C2 counterexample: a markup with two regions that both satisfy all four
tolerance checks, where the earliest one carries no link-reference attribute;
`get_target_rect` returns the second region's link "b", not the earliest
satisfying region's link reference (it has none), so the claim as stated
fails on this input. -/
theorem first_match_linkless_cex :
    parse_coords "0,1625,1000,2775" = some ⟨0, 1625, 1000, 2775⟩ ∧
    withinTolerance ⟨0, 1625, 1000, 2775⟩ ∧
    (Area.mk (some "0,1625,1000,2775") none).href = none ∧
    get_target_rect
      [⟨some "0,1625,1000,2775", none⟩,
        ⟨some "0,1625,1000,2775", some "b"⟩] = some "b" := by decide

/-- C2 amended: when more than one region passes the tolerance checks,
`get_target_rect` returns the link reference of the earliest region in
document order that both passes the code's four i32 tolerance checks (which,
in release builds, also accept a coordinate whose wrapped difference from its
reference is exactly -2147483648) and carries a link-reference attribute;
later such candidates are never chosen. -/
theorem get_target_rect_first_match (pre : List Area) (a : Area)
    (post : List Area) (s : String)
    (hpre : ∀ b ∈ pre, ∀ t, ¬ MatchesWithLink b t)
    (ha : MatchesWithLink a s) :
    get_target_rect (pre ++ a :: post) = some s := by
  rw [get_target_rect,
    findSome?_skip area_match pre (a :: post)
      (fun b hb => area_match_eq_none.mpr (hpre b hb)),
    List.findSome?_cons, area_match_eq_some.mpr ha]

/-- The amended C2 applied at a concrete markup: two in-tolerance linked
regions, with an out-of-tolerance one and a linkless in-tolerance one before
them; the earliest in-tolerance linked region's reference is returned. -/
theorem get_target_rect_first_match_witness :
    get_target_rect
      [⟨some "0,1627,242,2286", some "x"⟩,
        ⟨some "0,1625,1000,2775", none⟩,
        ⟨some "0,1625,1000,2775", some "first"⟩,
        ⟨some "0,1670,1001,2764", some "second"⟩] = some "first" := by
  have h := get_target_rect_first_match
    [⟨some "0,1627,242,2286", some "x"⟩, ⟨some "0,1625,1000,2775", none⟩]
    ⟨some "0,1625,1000,2775", some "first"⟩
    [⟨some "0,1670,1001,2764", some "second"⟩] "first"
    (by
      intro b hb t hm
      obtain ⟨cs, r, hc, hp, ht, hh⟩ := hm
      simp only [List.mem_cons, List.not_mem_nil, or_false] at hb
      rcases hb with rfl | rfl
      · cases Option.some.inj hc
        rw [show parse_coords "0,1627,242,2286" = some ⟨0, 1627, 242, 2286⟩
          from by decide] at hp
        cases Option.some.inj hp
        exact absurd ht (by decide)
      · exact Option.noConfusion hh)
    ⟨"0,1625,1000,2775", ⟨0, 1625, 1000, 2775⟩, rfl, by decide, by decide, rfl⟩
  simpa using h

/-- C4 counterexample: a markup whose only region is the overflow region
(-2147483648, -2147482023, -2147482648, -2147480873) with a link.  The
region satisfies none of the four tolerances in absolute value, so by the
claim the markup has no satisfying linked region and should yield no match -
yet the release-build `i32::abs` wrap makes the code's checks pass and
`get_target_rect` returns the link instead of `none` (a debug build panics
at this input). -/
theorem get_target_rect_none_overflow_cex :
    ((-2147483648 : Int) - 0).natAbs > 5 ∧
    ((-2147482023 : Int) - 1625).natAbs > 50 ∧
    ((-2147482648 : Int) - 1000).natAbs > 10 ∧
    ((-2147480873 : Int) - 2775).natAbs > 50 ∧
    get_target_rect
      [⟨some "-2147483648,-2147482023,-2147482648,-2147480873", some "t"⟩] =
      some "t" := by decide

/-- C4 amended: `get_target_rect` returns no match on the empty markup, and
on any markup in which no region both passes the code's four i32 tolerance
checks (release-build wrap at -2147483648 included) and carries a
link-reference attribute: markup with no region elements, markup whose every
region fails the code's checks, and markup whose every check-passing region
lacks a link reference all yield no match. -/
theorem get_target_rect_none_cases :
    get_target_rect [] = none ∧
    ∀ areas, (∀ a ∈ areas, ∀ s, ¬ MatchesWithLink a s) →
      get_target_rect areas = none := by
  refine ⟨rfl, ?_⟩
  intro areas h
  rw [get_target_rect, List.findSome?_eq_none_iff]
  intro a ha
  exact area_match_eq_none.mpr (h a ha)

/-- C4 applied at a concrete markup holding an out-of-tolerance linked
region, an in-tolerance linkless region, a region with no coordinates, and a
region with unparseable coordinates: no match. -/
theorem get_target_rect_none_cases_witness :
    get_target_rect
      [⟨some "0,1627,242,2286", some "t"⟩,
        ⟨some "0,1625,1000,2775", none⟩,
        ⟨none, some "u"⟩,
        ⟨some "junk", some "v"⟩] = none := by
  apply get_target_rect_none_cases.2
  intro a ha s hm
  obtain ⟨cs, r, hc, hp, ht, hh⟩ := hm
  simp only [List.mem_cons, List.not_mem_nil, or_false] at ha
  rcases ha with rfl | rfl | rfl | rfl
  · cases Option.some.inj hc
    rw [show parse_coords "0,1627,242,2286" = some ⟨0, 1627, 242, 2286⟩
      from by decide] at hp
    cases Option.some.inj hp
    exact absurd ht (by decide)
  · exact Option.noConfusion hh
  · exact Option.noConfusion hc
  · cases Option.some.inj hc
    rw [show parse_coords "junk" = none from by decide] at hp
    exact Option.noConfusion hp

/-- C5 counterexample: the overflow region, linked as "evil", precedes a
genuinely in-tolerance linked region "w".  By the claim the preceding
non-matching sibling (its x1 is astronomically outside tolerance in absolute
value) is skipped and "w" is returned; but the release-build `i32::abs` wrap
makes the code's checks pass on the sibling, so its link "evil" is returned
instead (and a debug build aborts the scan with a panic there). -/
theorem get_target_rect_skips_overflow_cex :
    ((-2147483648 : Int) - 0).natAbs > 5 ∧
    parse_coords "0,1670,1001,2764" = some ⟨0, 1670, 1001, 2764⟩ ∧
    ((0 : Int) - 0).natAbs ≤ 5 ∧ ((1670 : Int) - 1625).natAbs ≤ 50 ∧
    ((1001 : Int) - 1000).natAbs ≤ 10 ∧ ((2764 : Int) - 2775).natAbs ≤ 50 ∧
    get_target_rect
      [⟨some "-2147483648,-2147482023,-2147482648,-2147480873", some "evil"⟩,
        ⟨some "0,1670,1001,2764", some "w"⟩] = some "evil" := by decide

/-- C5 amended: regions lacking a coordinate attribute, with unparseable
coordinates, or failing the code's four i32 tolerance checks are skipped
without aborting the scan: a later region that parses, passes the code's
checks and carries a link reference still has that link reference returned,
whatever precedes it. -/
theorem get_target_rect_skips_invalid (pre : List Area) (a : Area)
    (post : List Area) (cs : String) (r : Rect) (s : String)
    (hpre : ∀ b ∈ pre, ∀ cs' r', b.coords = some cs' →
      parse_coords cs' = some r' → ¬ withinTolerance r')
    (hc : a.coords = some cs) (hp : parse_coords cs = some r)
    (ht : withinTolerance r) (hh : a.href = some s) :
    get_target_rect (pre ++ a :: post) = some s := by
  rw [get_target_rect,
    findSome?_skip area_match pre (a :: post)
      (fun b hb => area_match_eq_none.mpr (by
        intro t hm
        obtain ⟨cs', r', hc', hp', ht', _⟩ := hm
        exact hpre b hb cs' r' hc' hp' ht')),
    List.findSome?_cons, area_match_eq_some.mpr ⟨cs, r, hc, hp, ht, hh⟩]

/-- C5 applied at a concrete markup: a region with no coordinate attribute,
one with an unparseable coordinate string and one out of tolerance precede an
in-tolerance linked region, whose link is still returned. -/
theorem get_target_rect_skips_invalid_witness :
    get_target_rect
      [⟨none, some "x"⟩,
        ⟨some "junk", some "y"⟩,
        ⟨some "0,1627,242,2286", some "z"⟩,
        ⟨some "0,1670,1001,2764", some "w"⟩] = some "w" := by
  have h := get_target_rect_skips_invalid
    [⟨none, some "x"⟩, ⟨some "junk", some "y"⟩, ⟨some "0,1627,242,2286", some "z"⟩]
    ⟨some "0,1670,1001,2764", some "w"⟩ []
    "0,1670,1001,2764" ⟨0, 1670, 1001, 2764⟩ "w"
    (by
      intro b hb cs' r' hc' hp' ht'
      simp only [List.mem_cons, List.not_mem_nil, or_false] at hb
      rcases hb with rfl | rfl | rfl
      · exact Option.noConfusion hc'
      · cases Option.some.inj hc'
        rw [show parse_coords "junk" = none from by decide] at hp'
        exact Option.noConfusion hp'
      · cases Option.some.inj hc'
        rw [show parse_coords "0,1627,242,2286" = some ⟨0, 1627, 242, 2286⟩
          from by decide] at hp'
        cases Option.some.inj hp'
        exact absurd ht' (by decide))
    rfl (by decide) (by decide) rfl
  simpa using h

theorem tryPages_all_nomatch (env : Env) (d : String) (ps : List Nat)
    (h : ∀ p ∈ ps, NoMatchOk env p) :
    tryPages env d ps =
      (.error "Could not find crossword on any page", ps.map Event.discovery) := by
  induction ps with
  | nil => rfl
  | cons p rest ih =>
    obtain ⟨as, h1, h2⟩ := h p (by simp)
    simp [tryPages, h1, h2, ih (fun q hq => h q (by simp [hq]))]

theorem tryPages_skip_nomatch (env : Env) (d : String) (ps1 ps2 : List Nat)
    (h : ∀ p ∈ ps1, NoMatchOk env p) :
    tryPages env d (ps1 ++ ps2) =
      ((tryPages env d ps2).1, ps1.map Event.discovery ++ (tryPages env d ps2).2) := by
  induction ps1 with
  | nil => simp
  | cons p rest ih =>
    obtain ⟨as, h1, h2⟩ := h p (by simp)
    simp [tryPages, h1, h2, ih (fun q hq => h q (by simp [hq]))]

theorem tryPages_match_head (env : Env) (d : String) (p : Nat) (rest : List Nat)
    (as : List Area) (href : String)
    (h1 : env.mappingResponse p = .ok as) (h2 : get_target_rect as = some href) :
    tryPages env d (p :: rest) =
      ((handleMatch env d href).1, .discovery p :: (handleMatch env d href).2) := by
  simp [tryPages, h1, h2]

theorem handleMatch_no_discovery (env : Env) (d href : String) (q : Nat) :
    Event.discovery q ∉ (handleMatch env d href).2 := by
  cases h1 : env.pageResponse ("https://www.ehitavada.com/" ++ href) with
  | error e => simp [handleMatch, h1]
  | ok imgs =>
    cases h2 : imgs.head? with
    | none => simp [handleMatch, h1, h2]
    | some img =>
      cases h3 : img.src with
      | none => simp [handleMatch, h1, h2, h3]
      | some src =>
        cases h4 : env.imageResponse ("https://www.ehitavada.com/" ++ src) with
        | error e => simp [handleMatch, h1, h2, h3, h4]
        | ok bytes =>
          cases h5 : env.writeFile ("/tmp/crossword_" ++ d ++ ".jpg") bytes with
          | error e => simp [handleMatch, h1, h2, h3, h4, h5]
          | ok u =>
            cases h6 : env.getCredentials with
            | error e => simp [handleMatch, h1, h2, h3, h4, h5, h6]
            | ok creds =>
              cases h7 : env.upload ("/tmp/crossword_" ++ d ++ ".jpg") creds with
              | error e => simp [handleMatch, h1, h2, h3, h4, h5, h6, h7]
              | ok fid => simp [handleMatch, h1, h2, h3, h4, h5, h6, h7]

theorem handleMatch_success (env : Env) (d href : String) (imgs : List Img)
    (img : Img) (src : String) (bytes : List Nat) (creds fileId : String)
    (hpage : env.pageResponse ("https://www.ehitavada.com/" ++ href) = .ok imgs)
    (hhead : imgs.head? = some img)
    (hsrc : img.src = some src)
    (himg : env.imageResponse ("https://www.ehitavada.com/" ++ src) = .ok bytes)
    (hwrite : env.writeFile ("/tmp/crossword_" ++ d ++ ".jpg") bytes = .ok ())
    (hcred : env.getCredentials = .ok creds)
    (hup : env.upload ("/tmp/crossword_" ++ d ++ ".jpg") creds = .ok fileId) :
    handleMatch env d href =
      (.ok ("/tmp/crossword_" ++ d ++ ".jpg"),
        [.pageFetch ("https://www.ehitavada.com/" ++ href),
          .imageFetch ("https://www.ehitavada.com/" ++ src),
          .write ("/tmp/crossword_" ++ d ++ ".jpg"), .credResolve,
          .upload ("/tmp/crossword_" ++ d ++ ".jpg")]) := by
  simp [handleMatch, hpage, hhead, hsrc, himg, hwrite, hcred, hup]

theorem range'_split_at (k : Nat) (hk : k ≤ 19) :
    List.range' 1 20 =
      List.range' 1 k ++ ((k + 1) :: List.range' (k + 2) (19 - k)) := by
  have h1 := List.range'_append_1 1 k (20 - k)
  rw [show (20 - k) + k = 20 from by omega] at h1
  rw [← h1]
  congr 1
  rw [show 20 - k = (19 - k) + 1 from by omega, List.range'_succ]
  rw [show 1 + k = k + 1 from by omega, show k + 1 + 1 = k + 2 from by omega]

/-- C6: when every one of the pages 1 through 20 returns a readable discovery
response in which the matcher finds no match, `download_crossword` issues
exactly one discovery request per page, for pages 1 through 20 in increasing
order, fails with the not-found error, and attempts no crossword-page fetch,
image fetch, local write, credential resolution or upload (the trace holds
discovery events only). -/
theorem download_crossword_exhausted (env : Env) (d : String)
    (h : ∀ p ∈ List.range' 1 20, NoMatchOk env p) :
    download_crossword env d =
      (.error "Could not find crossword on any page",
        (List.range' 1 20).map Event.discovery) ∧
    ∀ e ∈ (download_crossword env d).2, ∃ p, e = Event.discovery p := by
  have hmain := tryPages_all_nomatch env d (List.range' 1 20) h
  refine ⟨hmain, ?_⟩
  unfold download_crossword
  rw [hmain]
  intro e he
  simp only [List.mem_map] at he
  obtain ⟨p, _, rfl⟩ := he
  exact ⟨p, rfl⟩

/-- C6 applied to an environment whose every discovery response is markup
with no matching region. -/
theorem download_crossword_exhausted_witness :
    download_crossword
      ⟨fun _ => .ok [], fun _ => .error "e", fun _ => .error "e",
        fun _ _ => .error "e", .error "e", fun _ _ => .error "e"⟩ "2024-03-20" =
      (.error "Could not find crossword on any page",
        (List.range' 1 20).map Event.discovery) :=
  (download_crossword_exhausted _ "2024-03-20" (fun _ _ => ⟨[], rfl, rfl⟩)).1

/-- C7: when the matcher finds a match on page k+1 (after no-match pages 1
through k) and the subsequent match handling fails at any stage, the whole
operation fails with that stage's error and the driver never advances past
page k+1: every discovery request in the trace is for a page index at most
k+1. -/
theorem download_crossword_abort_on_failure (env : Env) (d : String) (k : Nat)
    (as : List Area) (href e : String)
    (hk : k ≤ 19)
    (hpre : ∀ p ∈ List.range' 1 k, NoMatchOk env p)
    (hm : env.mappingResponse (k + 1) = .ok as)
    (hmatch : get_target_rect as = some href)
    (hfail : (handleMatch env d href).1 = .error e) :
    (download_crossword env d).1 = .error e ∧
    ∀ q, Event.discovery q ∈ (download_crossword env d).2 → q ≤ k + 1 := by
  unfold download_crossword
  rw [range'_split_at k hk, tryPages_skip_nomatch env d _ _ hpre,
    tryPages_match_head env d (k + 1) _ as href hm hmatch]
  refine ⟨hfail, ?_⟩
  intro q hq
  simp only [List.mem_append, List.mem_cons, List.mem_map] at hq
  rcases hq with ⟨p, hp, hpq⟩ | hq | hq
  · cases hpq
    have := List.mem_range'_1.mp hp
    omega
  · cases hq
    omega
  · exact absurd hq (handleMatch_no_discovery env d href q)

/-- C7 applied to an environment whose page-1 discovery response matches but
whose crossword-page fetch fails: the run aborts with that failure. -/
theorem download_crossword_abort_on_failure_witness :
    (download_crossword
      ⟨fun _ => .ok [⟨some "0,1625,1000,2775", some "a.php"⟩],
        fun _ => .error "boom", fun _ => .error "e",
        fun _ _ => .error "e", .error "e", fun _ _ => .error "e"⟩
      "2024-03-20").1 = .error "boom" :=
  (download_crossword_abort_on_failure
    ⟨fun _ => .ok [⟨some "0,1625,1000,2775", some "a.php"⟩],
      fun _ => .error "boom", fun _ => .error "e",
      fun _ _ => .error "e", .error "e", fun _ _ => .error "e"⟩
    "2024-03-20" 0 [⟨some "0,1625,1000,2775", some "a.php"⟩] "a.php" "boom"
    (by omega) (by intro p hp; simp [List.range'] at hp)
    rfl (by decide) rfl).1

/-- C8: when pages 1 through k find no match and page k+1's discovery
response matches with link `href`, `download_crossword` stops scanning at
page k+1 (every discovery in the trace is for an index at most k+1), fetches
the matched page at the base URL joined with `href`, extracts the first image
element's `src`, fetches the image at the base URL joined with that source,
writes the bytes to `/tmp/crossword_<date>.jpg` (a deterministic path holding
the target date), uploads it, and returns that path as the success result. -/
theorem download_crossword_success (env : Env) (d : String) (k : Nat)
    (as : List Area) (href : String) (imgs : List Img) (img : Img)
    (src : String) (bytes : List Nat) (creds fileId : String)
    (hk : k ≤ 19)
    (hpre : ∀ p ∈ List.range' 1 k, NoMatchOk env p)
    (hm : env.mappingResponse (k + 1) = .ok as)
    (hmatch : get_target_rect as = some href)
    (hpage : env.pageResponse ("https://www.ehitavada.com/" ++ href) = .ok imgs)
    (hhead : imgs.head? = some img)
    (hsrc : img.src = some src)
    (himg : env.imageResponse ("https://www.ehitavada.com/" ++ src) = .ok bytes)
    (hwrite : env.writeFile ("/tmp/crossword_" ++ d ++ ".jpg") bytes = .ok ())
    (hcred : env.getCredentials = .ok creds)
    (hup : env.upload ("/tmp/crossword_" ++ d ++ ".jpg") creds = .ok fileId) :
    download_crossword env d =
      (.ok ("/tmp/crossword_" ++ d ++ ".jpg"),
        (List.range' 1 (k + 1)).map Event.discovery ++
          [.pageFetch ("https://www.ehitavada.com/" ++ href),
            .imageFetch ("https://www.ehitavada.com/" ++ src),
            .write ("/tmp/crossword_" ++ d ++ ".jpg"), .credResolve,
            .upload ("/tmp/crossword_" ++ d ++ ".jpg")]) ∧
    ∀ q, Event.discovery q ∈ (download_crossword env d).2 → q ≤ k + 1 := by
  have hhm := handleMatch_success env d href imgs img src bytes creds fileId
    hpage hhead hsrc himg hwrite hcred hup
  unfold download_crossword
  rw [range'_split_at k hk, tryPages_skip_nomatch env d _ _ hpre,
    tryPages_match_head env d (k + 1) _ as href hm hmatch, hhm]
  constructor
  · rw [List.range'_1_concat, show 1 + k = k + 1 from by omega]
    simp
  · intro q hq
    simp only [List.mem_append, List.mem_cons, List.mem_map,
      List.not_mem_nil, or_false] at hq
    rcases hq with ⟨p, hp, hpq⟩ | hq | hq | hq | hq | hq | hq
    · cases hpq
      have := List.mem_range'_1.mp hp
      omega
    · cases hq
      omega
    all_goals exact Event.noConfusion hq

/-- C8 applied to an environment where pages 1 and 2 yield no match, page 3's
discovery response matches with link "article.php?mid=X", and every
subsequent step succeeds: the driver returns the date-keyed local path. -/
theorem download_crossword_success_witness :
    download_crossword
      ⟨fun p => if p = 3
          then .ok [⟨some "0,1625,1000,2775", some "article.php?mid=X"⟩]
          else .ok [],
        fun _ => .ok [⟨some "images/foo.jpg"⟩], fun _ => .ok [1, 2, 3],
        fun _ _ => .ok (), .ok "creds", fun _ _ => .ok "id"⟩ "2024-03-21" =
      (.ok ("/tmp/crossword_" ++ "2024-03-21" ++ ".jpg"),
        (List.range' 1 (2 + 1)).map Event.discovery ++
          [.pageFetch ("https://www.ehitavada.com/" ++ "article.php?mid=X"),
            .imageFetch ("https://www.ehitavada.com/" ++ "images/foo.jpg"),
            .write ("/tmp/crossword_" ++ "2024-03-21" ++ ".jpg"), .credResolve,
            .upload ("/tmp/crossword_" ++ "2024-03-21" ++ ".jpg")]) :=
  (download_crossword_success
    ⟨fun p => if p = 3
        then .ok [⟨some "0,1625,1000,2775", some "article.php?mid=X"⟩]
        else .ok [],
      fun _ => .ok [⟨some "images/foo.jpg"⟩], fun _ => .ok [1, 2, 3],
      fun _ _ => .ok (), .ok "creds", fun _ _ => .ok "id"⟩
    "2024-03-21" 2
    [⟨some "0,1625,1000,2775", some "article.php?mid=X"⟩] "article.php?mid=X"
    [⟨some "images/foo.jpg"⟩] ⟨some "images/foo.jpg"⟩ "images/foo.jpg"
    [1, 2, 3] "creds" "id"
    (by omega)
    (by
      intro p hp
      simp only [List.mem_range'_1] at hp
      have hne : p ≠ 3 := by omega
      exact ⟨[], by simp [hne], rfl⟩)
    rfl (by decide) rfl rfl rfl rfl rfl rfl rfl).1
